import Mathlib

/-!
Verification of the ROS-II robotics middleware core (Rust) against its
natural-language specification, via a shallow embedding in Lean 4.

Rust strings are modelled as `String` where only equality/append matter and
as `List Char` where character-level splitting matters; machine integers
carry no overflow-relevant arithmetic here and are modelled as `Nat`.
Tokio channels are modelled by their observable outcomes: a broadcast
channel by its live receiver count (`broadcast::Sender::send` errors exactly
when that count is zero), a oneshot receive by `value`/`closed`, an mpsc
send by a delivered flag.
-/

/-! ## Topic wildcard matching — `Topic::matches`, src/messages/mod.rs -/

/-- Rust `pattern.split('*')` on a pattern modelled as `List Char`:
splits on each occurrence of the separator, keeping empty pieces, and
yields one piece even for the empty input. -/
def splitStar : List Char → List (List Char)
  | [] => [[]]
  | c :: cs =>
    if c = '*' then [] :: splitStar cs
    else
      match splitStar cs with
      | [] => [[c]]
      | p :: ps => (c :: p) :: ps

/-- Model of `Topic::matches(self, pattern)` from src/messages/mod.rs, on `List Char`:
pattern `"*"` matches everything; otherwise, if the pattern contains a star
and splitting on stars gives exactly two parts, the topic must start with
the first part and end with the second; any other case falls through to
plain equality. -/
def topicMatches (t p : List Char) : Bool :=
  if p = ['*'] then true
  else if p.contains '*' then
    match splitStar p with
    | [pre, suf] => pre.isPrefixOf t && suf.isSuffixOf t
    | _ => decide (t = p)
  else decide (t = p)

/-! ## NodeState and NodeInfo — src/core/node.rs, src/core/mod.rs -/

/-- Node lifecycle states, `NodeState` in src/core/node.rs. -/
inductive NodeState where
  | created
  | initializing
  | running
  | paused
  | stopping
  | stopped
  | error
deriving DecidableEq, Repr

/-- Model of `NodeInfo` from src/core/mod.rs. The random `Uuid` id is modelled as an
opaque `Nat`; the `namespace` field is named `nspace` because `namespace`
is a Lean keyword; the creation timestamp is irrelevant to the claims and
omitted. -/
structure NodeInfo where
  id : Nat
  name : String
  nspace : String
  state : NodeState
deriving DecidableEq, Repr

/-- Model of `NodeInfo::full_name` from src/core/mod.rs: `"/" + name` when the
namespace is empty or `"/"`, else `namespace + "/" + name`. -/
def NodeInfo.full_name (info : NodeInfo) : String :=
  if info.nspace.isEmpty || info.nspace == "/" then "/" ++ info.name
  else info.nspace ++ "/" ++ info.name

/-! ## MessageBus — src/messages/bus.rs

The bus state is its `topics` registry. For each topic the only datum the
claims depend on is the broadcast channel's live receiver count, because
`broadcast::Sender::send` returns `Err` exactly when no receiver is alive.
`broadcast::channel(buffer)` returns a `(sender, receiver)` pair and both
`create_publisher` and `subscribe` drop that initial receiver (`let
(sender, _) = ...`); `subscribe` then calls `sender.subscribe()`, adding
one live receiver. -/

/-- The topic registry of a `MessageBus`: an association list mapping a
topic name to the live receiver count of its broadcast channel. -/
structure MessageBus where
  topics : List (String × Nat)
deriving DecidableEq, Repr

/-- A freshly constructed bus (`MessageBus::new`): no topics. -/
def MessageBus.empty : MessageBus := ⟨[]⟩

/-- First-match association-list lookup, modelling `HashMap::get` on the
topic registry (keys are unique, so first match is the match). -/
def lookupEntry : List (String × Nat) → String → Option Nat
  | [], _ => none
  | e :: rest, t => if e.1 = t then some e.2 else lookupEntry rest t

/-- Receiver count recorded for topic `t`, if the topic exists. -/
def MessageBus.lookupTopic (b : MessageBus) (t : String) : Option Nat :=
  lookupEntry b.topics t

/-- Increment the receiver count stored for topic `t` (the effect of
`sender.subscribe()` on an existing channel). -/
def bumpEntry (t : String) : List (String × Nat) → List (String × Nat)
  | [] => []
  | e :: rest => if e.1 = t then (e.1, e.2 + 1) :: bumpEntry t rest else e :: bumpEntry t rest

/-- Model of `MessageBus::create_publisher`: reuse the topic's channel if present,
else create one — whose initial receiver is immediately dropped, leaving a
receiver count of zero. The returned `Publisher` handle holds no state the
claims need. -/
def MessageBus.create_publisher (b : MessageBus) (t : String) : MessageBus :=
  match b.lookupTopic t with
  | some _ => b
  | none => ⟨b.topics ++ [(t, 0)]⟩

/-- Model of `MessageBus::subscribe`: reuse or create the channel exactly as
`create_publisher` does, then add one live receiver via
`sender.subscribe()`. -/
def MessageBus.subscribe (b : MessageBus) (t : String) : MessageBus :=
  match b.lookupTopic t with
  | some _ => ⟨bumpEntry t b.topics⟩
  | none => ⟨b.topics ++ [(t, 1)]⟩

/-- The two failure modes of `MessageBus::publish`: the topic has no
channel (`anyhow!("Topic ... does not exist")`), or `sender.send` fails
because the channel has no live receivers. -/
inductive PublishError where
  | topicDoesNotExist
  | noReceivers
deriving DecidableEq, Repr

/-- Model of `MessageBus::publish`: error if the topic is absent from the registry;
otherwise `sender.send(message)?`, which errors exactly when the broadcast
channel has zero live receivers. The message payload does not influence
success and is not modelled. -/
def MessageBus.publish (b : MessageBus) (t : String) : Except PublishError Unit :=
  match b.lookupTopic t with
  | none => .error .topicDoesNotExist
  | some c => if c = 0 then .error .noReceivers else .ok ()

/-- A bus call that can change the topic registry, plus `publish`, which
reads it (a failed or successful publish never mutates the registry). -/
inductive BusOp where
  | createPublisher (t : String)
  | subscribe (t : String)
  | publishOp (t : String)
deriving DecidableEq, Repr

/-- State after one bus call. -/
def MessageBus.applyOp (b : MessageBus) : BusOp → MessageBus
  | .createPublisher t => b.create_publisher t
  | .subscribe t => b.subscribe t
  | .publishOp _ => b

/-- State after a sequence of bus calls, first call first. -/
def MessageBus.applyOps (b : MessageBus) (ops : List BusOp) : MessageBus :=
  ops.foldl MessageBus.applyOp b

/-- Whether a bus call is a `create_publisher` or `subscribe` on topic `t`
(the calls that can create or touch `t`'s channel). -/
def BusOp.touches (o : BusOp) (t : String) : Prop :=
  o = .createPublisher t ∨ o = .subscribe t

instance (o : BusOp) (t : String) : Decidable (o.touches t) := by
  unfold BusOp.touches; infer_instance

/-! ## Node instances and RobotSystem — src/core/system.rs, src/core/node.rs

A `Box<dyn Node>` passed to `add_node` is modelled by the data the claims
observe: its `NodeInfo`, its concrete Rust type, whether a `MessageBus`
has been stored in it, and the success/failure behaviour of its fallible
lifecycle methods. -/

/-- Concrete Rust types relevant to the `downcast_mut::<BaseNode>()` in
`RobotSystem::add_node`: `BaseNode` itself, the various non-`BaseNode`
`Node` implementors (src/nodes/*), and the type `Box<dyn Node>`. -/
inductive RustTy where
  | baseNode
  | sensorNode
  | boxDynNode
deriving DecidableEq, Repr

/-- A node instance as observed through the `Node` trait object. `initOk`,
`stopOk`, `cleanupOk` record whether the node's `initialize`/`stop`/
`cleanup` return `Ok` (node-specific behaviour behind the trait). -/
structure NodeInst where
  info : NodeInfo
  concreteTy : RustTy
  busAttached : Bool
  initOk : Bool
  stopOk : Bool
  cleanupOk : Bool
deriving DecidableEq, Repr

/-- TypeId seen through `node.as_any_mut()` in `RobotSystem::add_node`.
The helper trait is the blanket `impl<T: 'static> AsAny for T`
(src/core/system.rs), and method resolution on the receiver `node:
Box<dyn Node>` instantiates it at `T = Box<dyn Node>` — the `Box` itself,
not the node inside it — so the erased TypeId is always that of
`Box<dyn Node>`, whatever the node's concrete type is. -/
def NodeInst.asAnyMutTypeId (_n : NodeInst) : RustTy := .boxDynNode

/-- Model of `node.as_any_mut().downcast_mut::<BaseNode>()`: succeeds exactly when
the erased TypeId equals `BaseNode`'s. Because `asAnyMutTypeId` is always
`boxDynNode`, this downcast never succeeds. -/
def NodeInst.downcastMutBaseNode (n : NodeInst) : Option NodeInst :=
  if n.asAnyMutTypeId = RustTy.baseNode then some n else none

/-- Model of `node.initialize()`: node-specific; succeeds iff `initOk`. On success
the node ends up `Running` as `BaseNode::initialize` does (Initializing
then Running); the final state is not used by any claim. -/
def NodeInst.initNode (n : NodeInst) : Except String NodeInst :=
  if n.initOk then .ok { n with info := { n.info with state := .running } }
  else .error "initialization failed"

/-- Observable side effects performed on nodes and tasks by
`RobotSystem::add_node` / `remove_node`, in invocation order. -/
inductive Effect where
  | setMessageBus (id : Nat)
  | initializeNode (id : Nat)
  | scheduleTask (id : Nat)
  | abortTask (id : Nat)
  | stopNode (id : Nat)
  | cleanupNode (id : Nat)
deriving DecidableEq, Repr

/-- The error cases of `RobotSystem::add_node`: capacity reached, full-name
conflict, or the node's own `initialize()` failure. -/
inductive AddNodeError where
  | capacity
  | conflict
  | initFailed
deriving DecidableEq, Repr

/-- Model of the `RobotSystem` state (src/core/system.rs): configured `max_nodes`, the
node registry (NodeId → node), the task-handle registry (NodeIds with a
spawned task), and the running flag. The message bus, shutdown channel and
start time play no role in the claims below. -/
structure RobotSystem where
  maxNodes : Nat
  nodes : List (Nat × NodeInst)
  handles : List Nat
  isRunning : Bool
deriving DecidableEq, Repr

/-- Model of `RobotSystem::add_node`, src/core/system.rs lines 58–98. Checks, in
order: capacity (`nodes.len() >= max_nodes`), full-name conflict against
every registered node; then attempts the `BaseNode` downcast and attaches
the bus if it succeeds, calls `initialize()` (propagating its error), and
inserts the node; if the system is running it also spawns the node task.
Returns the result, the new system state, and the effects performed. -/
def RobotSystem.add_node (s : RobotSystem) (n : NodeInst) :
    Except AddNodeError Nat × RobotSystem × List Effect :=
  let nodeId := n.info.id
  let nodeName := n.info.full_name
  if s.maxNodes ≤ s.nodes.length then (.error .capacity, s, [])
  else if s.nodes.any (fun e => e.2.info.full_name == nodeName) then
    (.error .conflict, s, [])
  else
    let busStep : NodeInst × List Effect :=
      match n.downcastMutBaseNode with
      | some b => ({ b with busAttached := true }, [Effect.setMessageBus nodeId])
      | none => (n, [])
    match busStep.1.initNode with
    | .error _ => (.error .initFailed, s, busStep.2 ++ [Effect.initializeNode nodeId])
    | .ok n2 =>
      let inserted := { s with nodes := s.nodes ++ [(nodeId, n2)] }
      if s.isRunning then
        (.ok nodeId,
         { inserted with handles := inserted.handles ++ [nodeId] },
         busStep.2 ++ [Effect.initializeNode nodeId, Effect.scheduleTask nodeId])
      else
        (.ok nodeId, inserted, busStep.2 ++ [Effect.initializeNode nodeId])

/-- First-match lookup in the node registry, modelling `HashMap::remove`'s
hit test (keys are unique NodeIds). -/
def findNode : List (Nat × NodeInst) → Nat → Option NodeInst
  | [], _ => none
  | e :: rest, i => if e.1 = i then some e.2 else findNode rest i

/-- Model of `RobotSystem::remove_node`, src/core/system.rs lines 100–116: abort the
node's task if a handle exists, then remove the node from the registry and
call `stop()` then `cleanup()` on it, propagating their errors (`?`); a
NodeId absent from both registries yields `Ok(())` with no effects. -/
def RobotSystem.remove_node (s : RobotSystem) (id : Nat) :
    Except String Unit × RobotSystem × List Effect :=
  let taskStep : RobotSystem × List Effect :=
    if s.handles.contains id then
      ({ s with handles := s.handles.filter (fun h => h ≠ id) }, [Effect.abortTask id])
    else (s, [])
  match findNode taskStep.1.nodes id with
  | none => (.ok (), taskStep.1, taskStep.2)
  | some n =>
    let s2 := { taskStep.1 with nodes := taskStep.1.nodes.filter (fun e => e.1 ≠ id) }
    if n.stopOk then
      if n.cleanupOk then
        (.ok (), s2, taskStep.2 ++ [Effect.stopNode id, Effect.cleanupNode id])
      else
        (.error "cleanup failed", s2, taskStep.2 ++ [Effect.stopNode id, Effect.cleanupNode id])
    else (.error "stop failed", s2, taskStep.2 ++ [Effect.stopNode id])

/-! ## Scheduled node task — `RobotSystem::start_node_task`, src/core/system.rs

The spawned loop is a `tokio::select!` between an interval tick and the
shutdown broadcast. Each loop iteration resolves to one event: a tick
(carrying the node state observed under the node's write guard and
whether `spin_once` would return an error) or a shutdown reception. -/

/-- One resolved `select!` arm in the node task loop. -/
inductive TaskEvent where
  | tick (st : NodeState) (spinFails : Bool)
  | shutdown
deriving DecidableEq, Repr

/-- What a run of the node task loop did: one entry per `spin_once`
invocation (`true` = that invocation returned an error), and whether the
loop exited. -/
structure TaskRun where
  spins : List Bool
  exited : Bool
deriving DecidableEq, Repr

/-- The loop body of `start_node_task` over a finite event sequence: a tick
invokes `spin_once` only when the observed state is `Running`, and a
`spin_once` error is logged and the loop continues; a shutdown reception
breaks the loop, ignoring the rest of the sequence. An exhausted sequence
means the loop is still waiting (it never exits by itself). -/
def taskLoop : List TaskEvent → TaskRun
  | [] => ⟨[], false⟩
  | .shutdown :: _ => ⟨[], true⟩
  | .tick st spinFails :: rest =>
    let r := taskLoop rest
    if st = NodeState.running then ⟨spinFails :: r.spins, r.exited⟩ else r

/-- The `spin_once` invocations the spec predicts: one per tick whose
observed state is `Running`, among the events before the first shutdown. -/
def runningTickSpins (evts : List TaskEvent) : List Bool :=
  (evts.takeWhile (fun e => e ≠ TaskEvent.shutdown)).filterMap
    (fun e =>
      match e with
      | .tick st spinFails => if st = NodeState.running then some spinFails else none
      | .shutdown => none)

/-! ## ServiceClient::call — src/services.rs

The type-erased `Box<dyn Any + Send>` payload is modelled as a dependent
pair over the closed universe of response types defined in src/services.rs,
and `downcast` as a TypeId comparison. The two channel interactions are
modelled by their outcomes: whether the mpsc send was delivered, and what
the oneshot receive produced. -/

/-- TypeIds of the concrete service response types in src/services.rs. -/
inductive RespTy where
  | getParameterResponse
  | setParameterResponse
deriving DecidableEq, Repr

/-- Model of `GetParameterResponse` from src/services.rs. -/
structure GetParameterResponse where
  success : Bool
  error_message : Option String
  parameter_value : Option String
deriving DecidableEq, Repr

/-- Model of `SetParameterResponse` from src/services.rs. -/
structure SetParameterResponse where
  success : Bool
  error_message : Option String
deriving DecidableEq, Repr

/-- The Lean type denoted by a response TypeId. -/
def RespTy.denote : RespTy → Type
  | .getParameterResponse => GetParameterResponse
  | .setParameterResponse => SetParameterResponse

/-- A `Box<dyn Any + Send>` response payload: a TypeId together with a
value of the denoted type. -/
structure AnyBox where
  tyId : RespTy
  val : tyId.denote

/-- Model of `Box<dyn Any>::downcast::<T>()`: succeeds exactly when the erased
TypeId equals `T`'s. -/
def AnyBox.downcast (b : AnyBox) (c : RespTy) : Option c.denote :=
  if h : b.tyId = c then some (h ▸ b.val) else none

/-- Outcome of awaiting a oneshot receiver: a value arrived, or the sender
side was dropped without sending (the channel closed). -/
inductive OneshotRecv (α : Type) where
  | value (a : α)
  | closed

/-- The three failure modes of `ServiceClient::call`, in the order the code
can produce them. -/
inductive CallError where
  | unavailable
  | didNotRespond
  | invalidResponseType
deriving DecidableEq, Repr

/-- Model of `ServiceClient::call` (src/services.rs lines 66–78) for a request whose
associated response TypeId is `c`: the mpsc send failing maps to
"service unavailable"; the oneshot closing without a value maps to
"service did not respond"; a received payload that does not downcast to
the response type maps to "invalid response type"; otherwise the typed
response is returned. -/
def ServiceClient.call (c : RespTy) (sendDelivered : Bool)
    (resp : OneshotRecv AnyBox) : Except CallError c.denote :=
  if sendDelivered then
    match resp with
    | .closed => .error .didNotRespond
    | .value b =>
      match b.downcast c with
      | some r => .ok r
      | none => .error .invalidResponseType
  else .error .unavailable

/-! ## ActionGoalHandle::get_result — src/actions.rs -/

/-- Model of `ActionGoalStatus` from src/actions.rs. -/
inductive ActionGoalStatus where
  | pending
  | active
  | succeeded
  | aborted
  | canceled
deriving DecidableEq, Repr

/-- Model of `SimpleActionResult` from src/actions.rs, the concrete result type used
to instantiate the generic handle in witnesses. -/
structure SimpleActionResult where
  success : Bool
  message : String
deriving DecidableEq, Repr

/-- An `ActionGoalHandle<Goal>` restricted to the fields `get_result`
touches: the optional oneshot result receiver (`result_rx`), modelled by
its eventual outcome, plus the informational goal id and status. The
feedback receiver and cancellation sender are untouched by `get_result`
and omitted. -/
structure ActionGoalHandle (R : Type) where
  goal_id : Nat
  status : ActionGoalStatus
  result_rx : Option (OneshotRecv R)

/-- The failure modes of `get_result`: the oneshot receiver erred (closed
without a value), or the receiver was already taken by an earlier call. -/
inductive GetResultError where
  | recvFailed
  | alreadyConsumed
deriving DecidableEq, Repr

/-- Model of `ActionGoalHandle::get_result` (src/actions.rs lines 56–62):
`self.result_rx.take()` — if a receiver is present it is consumed (left
`None`) and awaited, a closed channel becoming an error; if absent the
call fails with "Result already consumed". Returns the result paired with
the mutated handle. -/
def ActionGoalHandle.get_result (h : ActionGoalHandle R) :
    Except GetResultError R × ActionGoalHandle R :=
  match h.result_rx with
  | some rx =>
    (match rx with
     | .value r => .ok r
     | .closed => .error .recvFailed,
     { h with result_rx := none })
  | none => (.error .alreadyConsumed, h)

/-- The `(k+1)`-th consecutive `get_result` call on a handle: result and
handle state after calling `get_result` `k+1` times. -/
def ActionGoalHandle.getResultIter (h : ActionGoalHandle R) :
    Nat → Except GetResultError R × ActionGoalHandle R
  | 0 => h.get_result
  | k + 1 => (h.getResultIter k).2.get_result

/-! ## Concrete sample data used in witnesses and counterexamples -/

/-- A `BaseNode`-typed node instance named `/a`, all lifecycle calls
succeeding, no bus attached yet (as after `BaseNode::new`). -/
def nodeA : NodeInst :=
  ⟨⟨1, "a", "", NodeState.created⟩, RustTy.baseNode, false, true, true, true⟩

/-- A second node also named `/a` but of a non-`BaseNode` concrete type. -/
def nodeA2 : NodeInst :=
  ⟨⟨2, "a", "", NodeState.created⟩, RustTy.sensorNode, false, true, true, true⟩

/-- A node named `/b`. -/
def nodeB : NodeInst :=
  ⟨⟨3, "b", "", NodeState.created⟩, RustTy.sensorNode, false, true, true, true⟩

/-- A fresh system with room for ten nodes, not yet started. -/
def freshSys : RobotSystem := ⟨10, [], [], false⟩

/-- A system of capacity one already holding `nodeA`, not running. -/
def fullSys : RobotSystem := ⟨1, [(1, nodeA)], [], false⟩

/-- A sample goal handle whose result channel will deliver a successful
`SimpleActionResult`. -/
def sampleHandle : ActionGoalHandle SimpleActionResult :=
  ⟨5, ActionGoalStatus.pending, some (OneshotRecv.value ⟨true, "ok"⟩)⟩

/-! ## Helper lemmas -/

/-- Calling `get_result` on a handle whose receiver is already taken returns the
"already consumed" error and leaves the handle unchanged. -/
theorem get_result_of_none {R : Type} (h : ActionGoalHandle R)
    (hn : h.result_rx = none) :
    h.get_result = (.error .alreadyConsumed, h) := by
  unfold ActionGoalHandle.get_result
  rw [hn]

/-! ## C8 — NodeInfo::full_name -/

/-- C8: for every `NodeInfo` with name `n` and namespace `ns`, `full_name`
is `"/" ++ n` when `ns` is empty or `"/"`, and `ns ++ "/" ++ n`
otherwise. -/
theorem full_name_spec (i : Nat) (n ns : String) (st : NodeState) :
    NodeInfo.full_name ⟨i, n, ns, st⟩ =
      if ns = "" ∨ ns = "/" then "/" ++ n else ns ++ "/" ++ n := by
  unfold NodeInfo.full_name
  by_cases h1 : ns = ""
  · simp [h1]
  · by_cases h2 : ns = "/"
    · simp [h2]
    · have he : ns.isEmpty = false := by
        rw [Bool.eq_false_iff]
        intro hc
        exact h1 ((String.isEmpty_iff ns).mp hc)
      simp [h1, h2, he]

/-! ## C3 — add_node at capacity -/

/-- C3: when the node registry already holds `max_nodes` nodes, `add_node`
returns the capacity error and leaves the system (in particular the
registry and its size) unchanged, performing no effect on the node. -/
theorem add_node_at_capacity (s : RobotSystem) (n : NodeInst)
    (hfull : s.nodes.length = s.maxNodes) :
    s.add_node n = (.error .capacity, s, []) := by
  unfold RobotSystem.add_node
  simp [hfull]

/-- Witness for C3: a capacity-one system holding one node rejects a
further `add_node` with the capacity error and is unchanged. -/
theorem add_node_at_capacity_witness :
    fullSys.add_node nodeB = (.error .capacity, fullSys, []) :=
  add_node_at_capacity fullSys nodeB rfl

/-! ## C4 — add_node name conflict -/

/-- C4 counterexample: in a system whose registry is at capacity, a node
whose fully-qualified name collides with a registered node's is rejected
with the capacity error, not the conflict error the claim demands — the
capacity check runs first. -/
theorem add_node_conflict_counterexample :
    nodeA.info.full_name = nodeA2.info.full_name
    ∧ (fullSys.add_node nodeA2).1 = Except.error AddNodeError.capacity
    ∧ (fullSys.add_node nodeA2).1 ≠ Except.error AddNodeError.conflict := by
  refine ⟨rfl, rfl, fun hc => ?_⟩
  exact absurd (Except.error.inj hc) (by decide)

/-- C4 (amended): provided the registry is below its configured maximum,
an `add_node` whose node's fully-qualified name equals a registered
node's returns the conflict error and leaves the system unchanged. -/
theorem add_node_name_conflict (s : RobotSystem) (n : NodeInst)
    (hcap : s.nodes.length < s.maxNodes)
    (hconf : ∃ e ∈ s.nodes, e.2.info.full_name = n.info.full_name) :
    s.add_node n = (.error .conflict, s, []) := by
  unfold RobotSystem.add_node
  have h1 : ¬ s.maxNodes ≤ s.nodes.length := by omega
  have h2 : s.nodes.any (fun e => e.2.info.full_name == n.info.full_name) = true := by
    rw [List.any_eq_true]
    obtain ⟨e, he, hn⟩ := hconf
    exact ⟨e, he, by simp [hn]⟩
  simp [h1, h2]

/-- Witness for C4: a two-slot system holding `/a` rejects a second node
named `/a` with the conflict error. -/
theorem add_node_name_conflict_witness :
    (⟨2, [(1, nodeA)], [], false⟩ : RobotSystem).add_node nodeA2
      = (.error .conflict, ⟨2, [(1, nodeA)], [], false⟩, []) :=
  add_node_name_conflict _ nodeA2 (by decide)
    ⟨(1, nodeA), by simp, rfl⟩

/-! ## C10 — remove_node on an unknown NodeId -/

/-- C10: `remove_node` on a NodeId present in neither the node registry nor
the task-handle registry returns `Ok`, leaves the whole system state (both
registries and every registered node) unchanged, and performs no effect —
in particular no `stop()` or `cleanup()` on any node. -/
theorem remove_node_absent (s : RobotSystem) (i : Nat)
    (hh : i ∉ s.handles)
    (hn : findNode s.nodes i = none) :
    s.remove_node i = (.ok (), s, []) := by
  unfold RobotSystem.remove_node
  simp [hh, hn]

/-- Witness for C10: removing an unregistered id from a one-node system
succeeds and changes nothing. -/
theorem remove_node_absent_witness :
    fullSys.remove_node 99 = (.ok (), fullSys, []) :=
  remove_node_absent fullSys 99 (by decide) rfl

/-! ## C2 — add_node success path never attaches the bus -/

/-- C2 (code bug): adding a fresh `BaseNode` to an empty system succeeds —
`initialize()` is called, the node is inserted, and its NodeInfo id is
returned — but no `set_message_bus` effect occurs and the stored node
still has no bus: the `as_any_mut()` blanket impl resolves at
`Box<dyn Node>`, so `downcast_mut::<BaseNode>()` never succeeds, even
though this node's concrete type is `BaseNode` itself. -/
theorem add_node_never_attaches_bus :
    (freshSys.add_node nodeA).1 = Except.ok 1
    ∧ (freshSys.add_node nodeA).2.2 = [Effect.initializeNode 1]
    ∧ Effect.setMessageBus 1 ∉ (freshSys.add_node nodeA).2.2
    ∧ findNode (freshSys.add_node nodeA).2.1.nodes 1
        = some { nodeA with info := { nodeA.info with state := NodeState.running } }
    ∧ (∀ e ∈ (freshSys.add_node nodeA).2.1.nodes, e.2.busAttached = false)
    ∧ nodeA.concreteTy = RustTy.baseNode := by
  refine ⟨rfl, rfl, by decide, rfl, ?_, rfl⟩
  decide

/-! ## C6 — ActionGoalHandle::get_result consumed exactly once -/

/-- C6: on a handle whose result receiver is present, the first
`get_result` call consumes the receiver (leaving it `None`) and returns
the delivered result — erring only if the channel closed without a value —
and every subsequent call returns the "already consumed" error. -/
theorem get_result_consumes_once {R : Type} (h : ActionGoalHandle R)
    (rx : OneshotRecv R) (hrx : h.result_rx = some rx) :
    ((h.getResultIter 0).1 =
        match rx with
        | .value r => Except.ok r
        | .closed => Except.error GetResultError.recvFailed)
    ∧ (h.getResultIter 0).2.result_rx = none
    ∧ ∀ k, (h.getResultIter (k + 1)).1 = Except.error GetResultError.alreadyConsumed := by
  have hfirst : h.getResultIter 0 = h.get_result := rfl
  have hres : h.get_result =
      ((match rx with
        | .value r => Except.ok r
        | .closed => Except.error GetResultError.recvFailed),
       { h with result_rx := none }) := by
    obtain ⟨gid, st, rxf⟩ := h
    have hrx' : rxf = some rx := hrx
    subst hrx'
    cases rx <;> rfl
  have hnone : ∀ k, (h.getResultIter k).2.result_rx = none := by
    intro k
    induction k with
    | zero => rw [hfirst, hres]
    | succ m ih =>
      show ((h.getResultIter m).2.get_result).2.result_rx = none
      rw [get_result_of_none _ ih]
      exact ih
  refine ⟨by rw [hfirst, hres], by rw [hfirst, hres], fun k => ?_⟩
  show ((h.getResultIter k).2.get_result).1 = Except.error GetResultError.alreadyConsumed
  rw [get_result_of_none _ (hnone k)]

/-- Witness for C6: on the sample handle the first call yields the
delivered result, the receiver is gone afterwards, and the second call is
the "already consumed" error. -/
theorem get_result_consumes_once_witness :
    (sampleHandle.getResultIter 0).1 = Except.ok ⟨true, "ok"⟩
    ∧ (sampleHandle.getResultIter 0).2.result_rx = none
    ∧ (sampleHandle.getResultIter 1).1 = Except.error GetResultError.alreadyConsumed := by
  have h := get_result_consumes_once sampleHandle (OneshotRecv.value ⟨true, "ok"⟩) rfl
  exact ⟨h.1, h.2.1, h.2.2 0⟩

/-! ## C5 — ServiceClient::call error cases -/

/-- C5: `call` fails with "service unavailable" exactly when the request
send is not delivered; with "service did not respond" exactly when the
send is delivered but the oneshot response channel closes without a value;
with "invalid response type" exactly when a response arrives whose erased
TypeId differs from the request's associated response type; and when a
response of the right type arrives it is returned as the typed `Ok`
value. -/
theorem service_call_cases (c : RespTy) (sendDelivered : Bool)
    (resp : OneshotRecv AnyBox) :
    ((ServiceClient.call c sendDelivered resp = .error .unavailable) ↔
        sendDelivered = false)
    ∧ ((ServiceClient.call c sendDelivered resp = .error .didNotRespond) ↔
        (sendDelivered = true ∧ resp = .closed))
    ∧ ((ServiceClient.call c sendDelivered resp = .error .invalidResponseType) ↔
        (sendDelivered = true ∧ ∃ b, resp = .value b ∧ b.tyId ≠ c))
    ∧ (∀ (b : AnyBox) (hb : b.tyId = c), sendDelivered = true → resp = .value b →
        ServiceClient.call c sendDelivered resp = .ok (hb ▸ b.val)) := by
  cases sendDelivered with
  | false =>
    refine ⟨by simp [ServiceClient.call], by simp [ServiceClient.call],
            by simp [ServiceClient.call], ?_⟩
    intro b hb hcontra
    cases hcontra
  | true =>
    cases resp with
    | closed =>
      refine ⟨by simp [ServiceClient.call], by simp [ServiceClient.call], ?_, ?_⟩
      · simp only [ServiceClient.call]
        constructor
        · intro hc; cases hc
        · rintro ⟨-, b, hb, -⟩; cases hb
      · intro b hb hsd hcontra
        cases hcontra
    | value b =>
      by_cases hty : b.tyId = c
      · have hcall : ServiceClient.call c true (.value b) = .ok (hty ▸ b.val) := by
          simp [ServiceClient.call, AnyBox.downcast, hty]
        refine ⟨by simp [hcall], by simp [hcall], ?_, ?_⟩
        · rw [hcall]
          constructor
          · intro hc; cases hc
          · rintro ⟨-, b', hb', hne⟩
            cases hb'
            exact absurd hty hne
        · intro b' hb' hsd hv
          cases hv
          rw [hcall]
      · have hcall : ServiceClient.call c true (.value b)
            = .error .invalidResponseType := by
          simp [ServiceClient.call, AnyBox.downcast, hty]
        refine ⟨by simp [hcall], by simp [hcall], ?_, ?_⟩
        · rw [hcall]
          exact ⟨fun _ => ⟨rfl, b, rfl, hty⟩, fun _ => rfl⟩
        · intro b' hb' hsd hv
          cases hv
          exact absurd hb' hty

/-- A sample response payload for the C5 witness. -/
def sampleResp : GetParameterResponse := ⟨true, none, some "v"⟩

/-- Witness for C5: with a delivered send and a well-typed response the
call returns the typed response; with an undelivered send it is the
"unavailable" error. -/
theorem service_call_cases_witness :
    ServiceClient.call RespTy.getParameterResponse true
        (OneshotRecv.value ⟨RespTy.getParameterResponse, sampleResp⟩)
      = .ok sampleResp
    ∧ ServiceClient.call RespTy.getParameterResponse false
        (OneshotRecv.value ⟨RespTy.getParameterResponse, sampleResp⟩)
      = .error .unavailable := by
  constructor
  · exact (service_call_cases RespTy.getParameterResponse true
      (OneshotRecv.value ⟨RespTy.getParameterResponse, sampleResp⟩)).2.2.2
      ⟨RespTy.getParameterResponse, sampleResp⟩ rfl rfl rfl
  · exact (service_call_cases RespTy.getParameterResponse false
      (OneshotRecv.value ⟨RespTy.getParameterResponse, sampleResp⟩)).1.mpr rfl

/-! ## C7 — the scheduled node task loop -/

/-- C7: over any finite sequence of resolved `select!` events, the node
task loop invokes `spin_once` exactly on the ticks whose observed node
state is `Running` among the events before the first shutdown — so a
`spin_once` error never removes later invocations or stops the loop — and
the loop exits exactly when a shutdown reception occurs in the
sequence. -/
theorem task_loop_spec (evts : List TaskEvent) :
    (taskLoop evts).spins = runningTickSpins evts
    ∧ ((taskLoop evts).exited = true ↔ TaskEvent.shutdown ∈ evts) := by
  induction evts with
  | nil => simp [taskLoop, runningTickSpins]
  | cons e rest ih =>
    cases e with
    | shutdown =>
      simp [taskLoop, runningTickSpins]
    | tick st spinFails =>
      have htw : runningTickSpins (TaskEvent.tick st spinFails :: rest)
          = (if st = NodeState.running then [spinFails] else [])
            ++ runningTickSpins rest := by
        unfold runningTickSpins
        rw [List.takeWhile_cons]
        by_cases hst : st = NodeState.running <;> simp [hst]
      by_cases hst : st = NodeState.running
      · refine ⟨?_, ?_⟩
        · rw [htw]
          simp [taskLoop, hst, ih.1]
        · simp [taskLoop, hst, ih.2]
      · refine ⟨?_, ?_⟩
        · rw [htw]
          simp [taskLoop, hst, ih.1]
        · simp [taskLoop, hst, ih.2]

/-! ## C9 — Topic::matches wildcard semantics -/

/-- Splitting a star-free pattern yields the single piece itself. -/
theorem splitStar_no_star (l : List Char) (h : '*' ∉ l) : splitStar l = [l] := by
  induction l with
  | nil => rfl
  | cons c cs ih =>
    have hc : ¬ c = '*' := fun hcc => h (hcc ▸ List.mem_cons_self c cs)
    have hcs : '*' ∉ cs := fun hm => h (List.mem_cons_of_mem c hm)
    unfold splitStar
    rw [if_neg hc, ih hcs]

/-- Splitting a pattern with exactly one star yields the star-free pieces
on its two sides. -/
theorem splitStar_one_star (pre suf : List Char) (hp : '*' ∉ pre)
    (hs : '*' ∉ suf) : splitStar (pre ++ '*' :: suf) = [pre, suf] := by
  induction pre with
  | nil =>
    show splitStar ('*' :: suf) = [[], suf]
    unfold splitStar
    rw [if_pos rfl, splitStar_no_star suf hs]
  | cons c cs ih =>
    have hc : ¬ c = '*' := fun hcc => hp (hcc ▸ List.mem_cons_self c cs)
    have hcs : '*' ∉ cs := fun hm => hp (List.mem_cons_of_mem c hm)
    show splitStar (c :: (cs ++ '*' :: suf)) = [c :: cs, suf]
    unfold splitStar
    rw [if_neg hc, ih hcs]

/-- A pattern of the shape `pre ++ '*' :: suf` contains a star. -/
theorem contains_star (pre suf : List Char) :
    (pre ++ '*' :: suf).contains '*' = true :=
  List.elem_iff.mpr (List.mem_append_right pre (List.mem_cons_self '*' suf))

/-- On a pattern with exactly one star that is not the bare `"*"`,
`Topic::matches` computes the prefix/suffix test. -/
theorem topicMatches_split (t pre suf : List Char) (hp : '*' ∉ pre)
    (hs : '*' ∉ suf) (hne : pre ++ '*' :: suf ≠ ['*']) :
    topicMatches t (pre ++ '*' :: suf) = (pre.isPrefixOf t && suf.isSuffixOf t) := by
  unfold topicMatches
  rw [if_neg hne, contains_star pre suf, if_pos rfl,
    splitStar_one_star pre suf hp hs]

/-- C9: `Topic::matches` returns true on the pattern `"*"` for every
topic; and on a pattern containing exactly one `'*'` — written
`pre ++ '*' :: suf` with star-free `pre` and `suf` — it returns true
exactly when the topic starts with `pre` and ends with `suf`. -/
theorem topic_matches_spec :
    (∀ t : List Char, topicMatches t ['*'] = true)
    ∧ ∀ (t pre suf : List Char), '*' ∉ pre → '*' ∉ suf →
        (topicMatches t (pre ++ '*' :: suf) = true ↔ pre <+: t ∧ suf <:+ t) := by
  refine ⟨fun t => by simp [topicMatches], ?_⟩
  intro t pre suf hp hs
  by_cases hne : pre ++ '*' :: suf = ['*']
  · have hpre : pre = [] ∧ suf = [] := by
      cases pre with
      | nil =>
        refine ⟨rfl, ?_⟩
        simpa using hne
      | cons c cs =>
        exfalso
        have hlen := congrArg List.length hne
        simp [List.length_append] at hlen
    obtain ⟨h1, h2⟩ := hpre
    subst h1
    subst h2
    simp [topicMatches]
  · rw [topicMatches_split t pre suf hp hs hne, Bool.and_eq_true]
    constructor
    · rintro ⟨h1, h2⟩
      exact ⟨ List.isPrefixOf_iff_prefix.mp h1, List.isSuffixOf_iff_suffix.mp h2⟩
    · rintro ⟨h1, h2⟩
      exact ⟨ List.isPrefixOf_iff_prefix.mpr h1, List.isSuffixOf_iff_suffix.mpr h2⟩

/-- Witness for C9: the topic `"ax"` matches the pattern `"a*"` (prefix
`"a"`, empty suffix). -/
theorem topic_matches_spec_witness :
    topicMatches [ 'a', 'x' ] (['a'] ++ '*' :: []) = true := by
  refine (topic_matches_spec.2 [ 'a', 'x' ] ['a'] [] (by decide) (by decide)).mpr ?_
  exact ⟨⟨['x'], rfl⟩, ⟨[ 'a', 'x' ], by simp⟩⟩

/-! ## C1 — MessageBus publish semantics -/

/-- Looking up in a registry extended on the right by a fresh entry: the
old entries win, the new one answers only when the old lookup misses. -/
theorem lookupEntry_append_single (l : List (String × Nat)) (t' : String)
    (c : Nat) (t : String) :
    lookupEntry (l ++ [(t', c)]) t =
      match lookupEntry l t with
      | some v => some v
      | none => if t' = t then some c else none := by
  induction l with
  | nil => rfl
  | cons e rest ih =>
    show lookupEntry (e :: (rest ++ [(t', c)])) t = _
    by_cases he : e.1 = t
    · show (if e.1 = t then some e.2 else lookupEntry (rest ++ [(t', c)]) t) = _
      rw [if_pos he]
      show _ = (match (if e.1 = t then some e.2 else lookupEntry rest t) with
        | some v => some v
        | none => if t' = t then some c else none)
      rw [if_pos he]
    · show (if e.1 = t then some e.2 else lookupEntry (rest ++ [(t', c)]) t) = _
      rw [if_neg he]
      show _ = (match (if e.1 = t then some e.2 else lookupEntry rest t) with
        | some v => some v
        | none => if t' = t then some c else none)
      rw [if_neg he]
      exact ih

/-- Bumping topic `t`'s receiver count raises its lookup by one. -/
theorem lookupEntry_bump_self (t : String) (l : List (String × Nat)) :
    lookupEntry (bumpEntry t l) t = (lookupEntry l t).map (· + 1) := by
  induction l with
  | nil => rfl
  | cons e rest ih =>
    by_cases he : e.1 = t
    · show lookupEntry (if e.1 = t then (e.1, e.2 + 1) :: bumpEntry t rest
          else e :: bumpEntry t rest) t = _
      rw [if_pos he]
      show (if e.1 = t then some (e.2 + 1) else lookupEntry (bumpEntry t rest) t) = _
      rw [if_pos he]
      show _ = (if e.1 = t then some e.2 else lookupEntry rest t).map (· + 1)
      rw [if_pos he]
      rfl
    · show lookupEntry (if e.1 = t then (e.1, e.2 + 1) :: bumpEntry t rest
          else e :: bumpEntry t rest) t = _
      rw [if_neg he]
      show (if e.1 = t then some e.2 else lookupEntry (bumpEntry t rest) t) = _
      rw [if_neg he]
      show _ = (if e.1 = t then some e.2 else lookupEntry rest t).map (· + 1)
      rw [if_neg he]
      exact ih

/-- Bumping topic `t` leaves every other topic's lookup unchanged. -/
theorem lookupEntry_bump_ne (t t' : String) (h : t ≠ t')
    (l : List (String × Nat)) :
    lookupEntry (bumpEntry t l) t' = lookupEntry l t' := by
  induction l with
  | nil => rfl
  | cons e rest ih =>
    by_cases he : e.1 = t
    · have hne : ¬ e.1 = t' := fun hc => h (he.symm.trans hc)
      show lookupEntry (if e.1 = t then (e.1, e.2 + 1) :: bumpEntry t rest
          else e :: bumpEntry t rest) t' = _
      rw [if_pos he]
      show (if e.1 = t' then some (e.2 + 1) else lookupEntry (bumpEntry t rest) t') = _
      rw [if_neg hne]
      show _ = (if e.1 = t' then some e.2 else lookupEntry rest t')
      rw [if_neg hne]
      exact ih
    · show lookupEntry (if e.1 = t then (e.1, e.2 + 1) :: bumpEntry t rest
          else e :: bumpEntry t rest) t' = _
      rw [if_neg he]
      show (if e.1 = t' then some e.2 else lookupEntry (bumpEntry t rest) t') = _
      show _ = (if e.1 = t' then some e.2 else lookupEntry rest t')
      by_cases he' : e.1 = t'
      · rw [if_pos he', if_pos he']
      · rw [if_neg he', if_neg he']
        exact ih

/-- A bus call that neither creates a publisher nor subscribes on `t`
leaves `t`'s lookup unchanged. -/
theorem lookupTopic_applyOp_untouched (b : MessageBus) (o : BusOp)
    (t : String) (h : ¬ o.touches t) :
    (b.applyOp o).lookupTopic t = b.lookupTopic t := by
  cases o with
  | publishOp t' => rfl
  | createPublisher t' =>
    have hne : t' ≠ t := fun hc => h (Or.inl (by rw [hc]))
    show (b.create_publisher t').lookupTopic t = _
    unfold MessageBus.create_publisher
    cases hl : b.lookupTopic t' with
    | some c => rfl
    | none =>
      show lookupEntry (b.topics ++ [(t', 0)]) t = lookupEntry b.topics t
      rw [lookupEntry_append_single]
      cases hl2 : lookupEntry b.topics t with
      | some v => rfl
      | none => rw [if_neg hne]
  | subscribe t' =>
    have hne : t' ≠ t := fun hc => h (Or.inr (by rw [hc]))
    show (b.subscribe t').lookupTopic t = _
    unfold MessageBus.subscribe
    cases hl : b.lookupTopic t' with
    | some c =>
      show lookupEntry (bumpEntry t' b.topics) t = lookupEntry b.topics t
      exact lookupEntry_bump_ne t' t hne b.topics
    | none =>
      show lookupEntry (b.topics ++ [(t', 1)]) t = lookupEntry b.topics t
      rw [lookupEntry_append_single]
      cases hl2 : lookupEntry b.topics t with
      | some v => rfl
      | none => rw [if_neg hne]

/-- No bus call ever lowers a topic's receiver count. -/
theorem lookupTopic_applyOp_mono (b : MessageBus) (o : BusOp) (t : String)
    (c : Nat) (h : b.lookupTopic t = some c) :
    ∃ c', (b.applyOp o).lookupTopic t = some c' ∧ c ≤ c' := by
  cases o with
  | publishOp t' => exact ⟨c, h, le_refl c⟩
  | createPublisher t' =>
    show ∃ c', (b.create_publisher t').lookupTopic t = some c' ∧ c ≤ c'
    unfold MessageBus.create_publisher
    cases hl : b.lookupTopic t' with
    | some d => exact ⟨c, h, le_refl c⟩
    | none =>
      refine ⟨c, ?_, le_refl c⟩
      show lookupEntry (b.topics ++ [(t', 0)]) t = some c
      rw [lookupEntry_append_single]
      have h' : lookupEntry b.topics t = some c := h
      rw [h']
  | subscribe t' =>
    show ∃ c', (b.subscribe t').lookupTopic t = some c' ∧ c ≤ c'
    unfold MessageBus.subscribe
    cases hl : b.lookupTopic t' with
    | some d =>
      by_cases ht : t' = t
      · subst ht
        refine ⟨c + 1, ?_, Nat.le_succ c⟩
        show lookupEntry (bumpEntry t' b.topics) t' = some (c + 1)
        rw [lookupEntry_bump_self]
        have h' : lookupEntry b.topics t' = some c := h
        rw [h']
        rfl
      · refine ⟨c, ?_, le_refl c⟩
        show lookupEntry (bumpEntry t' b.topics) t = some c
        rw [lookupEntry_bump_ne t' t ht]
        exact h
    | none =>
      have ht : t' ≠ t := by
        intro hc
        rw [hc, h] at hl
        cases hl
      refine ⟨c, ?_, le_refl c⟩
      show lookupEntry (b.topics ++ [(t', 1)]) t = some c
      rw [lookupEntry_append_single]
      have h' : lookupEntry b.topics t = some c := h
      rw [h']

/-- After `subscribe(t)` the topic `t` exists with at least one live
receiver. -/
theorem lookupTopic_subscribe_self (b : MessageBus) (t : String) :
    ∃ c, (b.subscribe t).lookupTopic t = some c ∧ 1 ≤ c := by
  unfold MessageBus.subscribe
  cases hl : b.lookupTopic t with
  | some d =>
    refine ⟨d + 1, ?_, Nat.succ_le_succ (Nat.zero_le d)⟩
    show lookupEntry (bumpEntry t b.topics) t = some (d + 1)
    rw [lookupEntry_bump_self]
    have h' : lookupEntry b.topics t = some d := hl
    rw [h']
    rfl
  | none =>
    refine ⟨1, ?_, le_refl 1⟩
    show lookupEntry (b.topics ++ [(t, 1)]) t = some 1
    rw [lookupEntry_append_single]
    have h' : lookupEntry b.topics t = none := hl
    rw [h', if_pos rfl]

/-- Applying `create_publisher(t)` on a bus where `t` is absent or has zero
receivers leaves `t` with exactly zero receivers: the channel's initial
receiver is dropped on the spot. -/
theorem lookupTopic_create_zero (b : MessageBus) (t : String)
    (h : b.lookupTopic t = none ∨ b.lookupTopic t = some 0) :
    (b.create_publisher t).lookupTopic t = some 0 := by
  unfold MessageBus.create_publisher
  cases hl : b.lookupTopic t with
  | some d =>
    rcases h with h | h
    · rw [h] at hl
      cases hl
    · exact h
  | none =>
    show lookupEntry (b.topics ++ [(t, 0)]) t = some 0
    rw [lookupEntry_append_single]
    have h' : lookupEntry b.topics t = none := hl
    rw [h', if_pos rfl]

/-- A bus call that touches `t` only as `create_publisher(t)` keeps `t`
absent-or-zero-receivers. -/
theorem lookupTopic_applyOp_zero (b : MessageBus) (o : BusOp) (t : String)
    (hop : o.touches t → o = .createPublisher t)
    (h : b.lookupTopic t = none ∨ b.lookupTopic t = some 0) :
    (b.applyOp o).lookupTopic t = none ∨ (b.applyOp o).lookupTopic t = some 0 := by
  by_cases ht : o.touches t
  · rw [hop ht]
    exact Or.inr (lookupTopic_create_zero b t h)
  · rw [lookupTopic_applyOp_untouched b o t ht]
    exact h

/-- A topic untouched by a whole call sequence keeps its lookup. -/
theorem lookupTopic_applyOps_untouched (ops : List BusOp) (t : String) :
    ∀ b : MessageBus, (∀ o ∈ ops, ¬ o.touches t) →
      (b.applyOps ops).lookupTopic t = b.lookupTopic t := by
  induction ops with
  | nil => intro b _; rfl
  | cons o rest ih =>
    intro b h
    show ((b.applyOp o).applyOps rest).lookupTopic t = _
    rw [ih (b.applyOp o) (fun o' ho' => h o' (List.mem_cons_of_mem o ho')),
      lookupTopic_applyOp_untouched b o t (h o (List.mem_cons_self o rest))]

/-- Receiver counts never drop across a whole call sequence. -/
theorem lookupTopic_applyOps_mono (ops : List BusOp) (t : String) :
    ∀ (b : MessageBus) (c : Nat), b.lookupTopic t = some c →
      ∃ c', (b.applyOps ops).lookupTopic t = some c' ∧ c ≤ c' := by
  induction ops with
  | nil => intro b c h; exact ⟨c, h, le_refl c⟩
  | cons o rest ih =>
    intro b c h
    obtain ⟨c1, h1, hle1⟩ := lookupTopic_applyOp_mono b o t c h
    obtain ⟨c2, h2, hle2⟩ := ih (b.applyOp o) c1 h1
    exact ⟨c2, h2, le_trans hle1 hle2⟩

/-- Once a sequence contains a `subscribe(t)`, the final bus has topic `t`
with at least one live receiver. -/
theorem lookupTopic_applyOps_subscribed (ops : List BusOp) (t : String) :
    ∀ b : MessageBus, BusOp.subscribe t ∈ ops →
      ∃ c, (b.applyOps ops).lookupTopic t = some c ∧ 1 ≤ c := by
  induction ops with
  | nil => intro b h; cases h
  | cons o rest ih =>
    intro b h
    rcases List.mem_cons.mp h with heq | hmem
    · subst heq
      obtain ⟨c, hc, h1⟩ := lookupTopic_subscribe_self b t
      obtain ⟨c', hc', hle⟩ :=
        lookupTopic_applyOps_mono rest t (b.applyOp (BusOp.subscribe t)) c hc
      exact ⟨c', hc', le_trans h1 hle⟩
    · exact ih (b.applyOp o) hmem

/-- A sequence touching `t` only through `create_publisher(t)` keeps `t`
absent-or-zero-receivers. -/
theorem lookupTopic_applyOps_zero (ops : List BusOp) (t : String) :
    ∀ b : MessageBus, (∀ o ∈ ops, o.touches t → o = .createPublisher t) →
      (b.lookupTopic t = none ∨ b.lookupTopic t = some 0) →
      ((b.applyOps ops).lookupTopic t = none
        ∨ (b.applyOps ops).lookupTopic t = some 0) := by
  induction ops with
  | nil => intro b _ h; exact h
  | cons o rest ih =>
    intro b hops h
    exact ih (b.applyOp o)
      (fun o' ho' => hops o' (List.mem_cons_of_mem o ho'))
      (lookupTopic_applyOp_zero b o t (hops o (List.mem_cons_self o rest)) h)

/-- A sequence touching `t` only through `create_publisher(t)`, and doing
so at least once, ends with topic `t` existing with zero receivers. -/
theorem lookupTopic_applyOps_created (ops : List BusOp) (t : String) :
    ∀ b : MessageBus, (∀ o ∈ ops, o.touches t → o = .createPublisher t) →
      BusOp.createPublisher t ∈ ops →
      (b.lookupTopic t = none ∨ b.lookupTopic t = some 0) →
      (b.applyOps ops).lookupTopic t = some 0 := by
  induction ops with
  | nil => intro b _ hmem _; cases hmem
  | cons o rest ih =>
    intro b hops hmem h
    by_cases ho : o = BusOp.createPublisher t
    · subst ho
      have h0 : (b.applyOp (BusOp.createPublisher t)).lookupTopic t = some 0 :=
        lookupTopic_create_zero b t h
      have hz := lookupTopic_applyOps_zero rest t
        (b.applyOp (BusOp.createPublisher t))
        (fun o' ho' => hops o' (List.mem_cons_of_mem _ ho')) (Or.inr h0)
      obtain ⟨c', hc', _⟩ := lookupTopic_applyOps_mono rest t
        (b.applyOp (BusOp.createPublisher t)) 0 h0
      rcases hz with hz | hz
      · rw [hc'] at hz
        cases hz
      · exact hz
    · have hmem' : BusOp.createPublisher t ∈ rest := by
        rcases List.mem_cons.mp hmem with heq | hm
        · exact absurd heq.symm ho
        · exact hm
      exact ih (b.applyOp o)
        (fun o' ho' => hops o' (List.mem_cons_of_mem _ ho')) hmem'
        (lookupTopic_applyOp_zero b o t (hops o (List.mem_cons_self o rest)) h)

/-- C1 counterexample: starting from a fresh bus, after a
`create_publisher("a")` call — and no subscribe — a `publish("a")` does
not succeed: the topic's broadcast channel exists but has zero receivers,
so `sender.send` fails. -/
theorem publish_after_create_only_counterexample :
    (MessageBus.empty.applyOps [BusOp.createPublisher "a"]).publish "a"
        = Except.error PublishError.noReceivers
    ∧ (MessageBus.empty.applyOps [BusOp.createPublisher "a"]).publish "a"
        ≠ Except.ok () := by
  refine ⟨rfl, fun hc => ?_⟩
  exact Except.noConfusion hc

/-- C1 (amended): on any sequence of bus calls starting from a fresh bus,
(1) if no `create_publisher` or `subscribe` ever targeted topic `t`, a
`publish(t)` fails with the topic-does-not-exist error; (2) once the
sequence contains a `subscribe(t)`, a subsequent `publish(t)` succeeds;
(3) if `t` was touched only by `create_publisher(t)` calls (at least one,
no subscribe), a `publish(t)` still fails — with the broadcast send error
for a channel with no receivers. -/
theorem publish_semantics (ops : List BusOp) (t : String) :
    ((∀ o ∈ ops, ¬ o.touches t) →
        (MessageBus.empty.applyOps ops).publish t
          = Except.error PublishError.topicDoesNotExist)
    ∧ (BusOp.subscribe t ∈ ops →
        (MessageBus.empty.applyOps ops).publish t = Except.ok ())
    ∧ ((∀ o ∈ ops, o.touches t → o = BusOp.createPublisher t) →
        BusOp.createPublisher t ∈ ops →
        (MessageBus.empty.applyOps ops).publish t
          = Except.error PublishError.noReceivers) := by
  refine ⟨?_, ?_, ?_⟩
  · intro h
    have hl : (MessageBus.empty.applyOps ops).lookupTopic t = none :=
      lookupTopic_applyOps_untouched ops t MessageBus.empty h
    unfold MessageBus.publish
    rw [hl]
  · intro h
    obtain ⟨c, hc, h1⟩ :=
      lookupTopic_applyOps_subscribed ops t MessageBus.empty h
    unfold MessageBus.publish
    rw [hc]
    show (if c = 0 then Except.error PublishError.noReceivers else Except.ok ())
      = Except.ok ()
    rw [if_neg (by omega)]
  · intro hops hmem
    have h0 := lookupTopic_applyOps_created ops t MessageBus.empty hops hmem
      (Or.inl rfl)
    unfold MessageBus.publish
    rw [h0]
    rfl

/-- Witness for C1 (amended): on topic `"a"`, publishing with no prior
call errors with topic-does-not-exist; after a subscribe it succeeds;
after only a `create_publisher` it errors with the no-receiver send
error. -/
theorem publish_semantics_witness :
    (MessageBus.empty.applyOps []).publish "a"
        = Except.error PublishError.topicDoesNotExist
    ∧ (MessageBus.empty.applyOps [BusOp.subscribe "a"]).publish "a"
        = Except.ok ()
    ∧ (MessageBus.empty.applyOps [BusOp.createPublisher "a"]).publish "a"
        = Except.error PublishError.noReceivers := by
  refine ⟨?_, ?_, ?_⟩
  · exact (publish_semantics [] "a").1 (fun o ho => absurd ho (List.not_mem_nil o))
  · exact (publish_semantics [BusOp.subscribe "a"] "a").2.1
      (List.mem_cons_self _ _)
  · exact (publish_semantics [BusOp.createPublisher "a"] "a").2.2
      (by decide) (List.mem_cons_self _ _)

/-- Witness for C7: on a run with a Running tick whose `spin_once` errors,
a Paused tick, another Running tick, then shutdown, exactly the two
Running ticks spin (the error does not stop the loop) and the loop
exits. -/
theorem task_loop_spec_witness :
    (taskLoop [TaskEvent.tick NodeState.running true,
      TaskEvent.tick NodeState.paused false,
      TaskEvent.tick NodeState.running false,
      TaskEvent.shutdown]).spins = [true, false]
    ∧ (taskLoop [TaskEvent.tick NodeState.running true,
      TaskEvent.tick NodeState.paused false,
      TaskEvent.tick NodeState.running false,
      TaskEvent.shutdown]).exited = true := by
  have h := task_loop_spec [TaskEvent.tick NodeState.running true,
    TaskEvent.tick NodeState.paused false,
    TaskEvent.tick NodeState.running false,
    TaskEvent.shutdown]
  refine ⟨?_, h.2.mpr (by simp)⟩
  rw [h.1]
  rfl
